import Mathlib

/-!
Verification of the crypto-prediction dashboard frontend.

The repository holds three near-duplicate React dashboard components
(`src/app/home/index.tsx`, `src/app/yahoo-dataset/index.tsx`, and an unnamed
earlier variant).  All logic is pure data formatting plus a small
request/response state machine, which we embed shallowly:

* JavaScript numbers are modelled as exact rationals (`ℚ`); the rendering
  helpers (`toFixed`, `toLocaleString`) are modelled by their ECMA-262 /
  ECMA-402 definitions on exact values, with en-US grouping conventions.
* Strings are Lean `String`s; JS `toLowerCase`/`includes`/`substring` are
  modelled on the underlying character lists (the inputs of interest are
  ASCII).
* Each `handleSubmit` handler becomes a pure state-transition function from
  the component's state, the frozen form data, and the outcomes of the HTTP
  fetches (network error / non-2xx / 2xx with a JSON-parse result) to the
  final component state.  `setX` calls become record updates, sequenced as in
  the source; a thrown exception jumps to the `catch` branch exactly as the
  source's single `try` block does.
-/

namespace CryptoDash

/-! ## JavaScript string primitives -/

/-- ASCII lowercasing of one character, as JS `toLowerCase` acts on the
ASCII range (all signal keywords in the source are ASCII). -/
def lowerChar (c : Char) : Char :=
  if 65 ≤ c.toNat ∧ c.toNat ≤ 90 then Char.ofNat (c.toNat + 32) else c

/-- Models `s.toLowerCase()` on the character list. -/
def lowerList (l : List Char) : List Char := l.map lowerChar

/-- Does the pattern start the list? (helper for substring containment). -/
def leadsWith : List Char → List Char → Bool
  | [], _ => true
  | _ :: _, [] => false
  | p :: ps, c :: cs => p == c && leadsWith ps cs

/-- Substring containment on character lists; models JS `includes`. -/
def containsPat : List Char → List Char → Bool
  | pat, [] => pat.isEmpty
  | pat, c :: rest => leadsWith pat (c :: rest) || containsPat pat rest

/-- Models `s.toLowerCase().includes(pat)` for an ASCII pattern. -/
def lowerIncludes (s pat : String) : Bool :=
  containsPat pat.toList (lowerList s.toList)

/-- Models `s.substring(a, b)` for `a ≤ b` (the only way the source calls
it): the characters at indices `[a, b)`. -/
def jsSubstring (s : String) (a b : Nat) : String :=
  ((s.toList.drop a).take (b - a)).asString

/-! ## Number rendering (`toFixed`, `toLocaleString`)

ECMA-262 `Number.prototype.toFixed(f)` on a nonnegative value picks the
integer `n` minimising `|n / 10^f - x|`, ties to the larger `n`; the sign is
split off first.  ECMA-402 `toLocaleString` rounds the same way
(`halfExpand`) and groups the integer part in threes. -/

/-- The integer `⌊x·10^f + 1/2⌋`: round-half-away-from-zero of `x·10^f`
for nonnegative `x` (both `toFixed` and `Intl` rounding on the values the
dashboard renders). -/
def roundScaled (f : Nat) (q : ℚ) : ℤ := ⌊q * (10 : ℚ) ^ f + 1 / 2⌋

/-- Left-pad a digit string with `'0'` to length `f`. -/
def padZeros (f : Nat) (s : String) : String :=
  String.mk (List.replicate (f - s.length) '0') ++ s

/-- Render `n / 10^f` as a plain decimal string with exactly `f` fraction
digits (no grouping). -/
def natDecimal (f : Nat) (n : Nat) : String :=
  if f = 0 then Nat.repr n
  else Nat.repr (n / 10 ^ f) ++ "." ++ padZeros f (Nat.repr (n % 10 ^ f))

/-- Models `x.toFixed(f)`. -/
def toFixed (f : Nat) (q : ℚ) : String :=
  if q < 0 then "-" ++ natDecimal f (roundScaled f (-q)).toNat
  else natDecimal f (roundScaled f q).toNat

/-- Insert `','` every three digits from the right (en-US grouping). -/
def groupDigits (s : String) : String :=
  String.mk
    (((s.toList.reverse.enum.map fun p =>
        if p.1 ≠ 0 ∧ p.1 % 3 = 0 then [',', p.2] else [p.2]).flatten).reverse)

/-- Grouped decimal rendering of `n / 10^f` with exactly `f` fraction
digits. -/
def groupedDecimalNat (f : Nat) (n : Nat) : String :=
  groupDigits (Nat.repr (n / 10 ^ f)) ++ "." ++ padZeros f (Nat.repr (n % 10 ^ f))

/-- Models `x.toLocaleString(undefined, { minimumFractionDigits: 2,
maximumFractionDigits: 2 })`: grouping plus exactly two fraction digits. -/
def toLocaleString2 (q : ℚ) : String :=
  if q < 0 then "-" ++ groupedDecimalNat 2 (roundScaled 2 (-q)).toNat
  else groupedDecimalNat 2 (roundScaled 2 q).toNat

/-- Drop trailing `'0'` characters. -/
def trimZeros (s : String) : String :=
  (s.toList.reverse.dropWhile (fun c => c == '0')).reverse.asString

/-- Grouped rendering with the ECMA-402 default fraction settings
(`minimumFractionDigits = 0`, `maximumFractionDigits = 3`). -/
def defaultDecimalNat (n : Nat) : String :=
  let ip := groupDigits (Nat.repr (n / 1000))
  let fp := trimZeros (padZeros 3 (Nat.repr (n % 1000)))
  if fp = "" then ip else ip ++ "." ++ fp

/-- Models `x.toLocaleString()` with no arguments: grouping, zero to three
fraction digits, trailing zeros dropped. -/
def toLocaleStringDefault (q : ℚ) : String :=
  if q < 0 then "-" ++ defaultDecimalNat (roundScaled 3 (-q)).toNat
  else defaultDecimalNat (roundScaled 3 q).toNat

/-- Smallest number of fraction digits (up to the double-precision-relevant
bound of 20) that writes `q` exactly. -/
def minFracDigits (q : ℚ) : Nat :=
  (((List.range 21).find? fun f => (q * (10 : ℚ) ^ f).den == 1).getD 20)

/-- Plain decimal for a nonnegative finite-decimal rational, shortest
fraction part. -/
def jsNumberToStringNonneg (q : ℚ) : String :=
  natDecimal (minFracDigits q) (q * (10 : ℚ) ^ minFracDigits q).num.toNat

/-- Models the bare template-literal rendering `` `${x}` `` of a JS number
whose value has a finite decimal expansion (every price the dashboard shows):
the shortest decimal string, no grouping, no forced fraction digits. -/
def jsNumberToString (q : ℚ) : String :=
  if q < 0 then "-" ++ jsNumberToStringNonneg (-q) else jsNumberToStringNonneg q

/-! ## Data model

Mirrors the TypeScript interfaces of `home/index.tsx` (the unnamed variant
declares the identical `FormData`/`PredictionData` family) and those of
`yahoo-dataset/index.tsx`, which drops `atr`/`mfi` from the indicators and
uses a `symbol`-based form. -/

/-- The `prediction` field is typed `'UP' | 'DOWN'` in every variant. -/
inductive Direction where
  | UP
  | DOWN
deriving DecidableEq

structure ForecastPoint where
  date : String
  predicted_price : ℚ
  prediction_interval_low : ℚ
  prediction_interval_high : ℚ
  direction : String
  probability : ℚ
deriving DecidableEq

structure TechnicalIndicators where
  rsi : ℚ
  rsi_signal : String
  macd : ℚ
  macd_signal : String
  stochastic : ℚ
  stochastic_signal : String
  adx : ℚ
  trend_strength : String
  atr : ℚ
  mfi : ℚ
deriving DecidableEq

structure PredictionData where
  prediction : Direction
  probability_up : ℚ
  probability_down : ℚ
  current_price : ℚ
  technical_indicators : TechnicalIndicators
  accuracy : ℚ
  plot_base64 : String
  forecast : List ForecastPoint
deriving DecidableEq

structure TickerInfo where
  ticker : String
  price : ℚ
  change_amount : ℚ
  change_percentage : ℚ
  volume : ℚ
deriving DecidableEq

structure MarketMovers where
  top_gainers : List TickerInfo
  top_losers : List TickerInfo
  most_actively_traded : List TickerInfo
  last_updated : String
deriving DecidableEq

structure FormData where
  base_currency : String
  quote_currency : String
  timeframe : String
  period : String
  api_key : String
deriving DecidableEq

structure YahooFormData where
  symbol : String
  timeframe : String
  period : String
deriving DecidableEq

structure YahooTechnicalIndicators where
  rsi : ℚ
  rsi_signal : String
  macd : ℚ
  macd_signal : String
  stochastic : ℚ
  stochastic_signal : String
  adx : ℚ
  trend_strength : String
deriving DecidableEq

structure YahooPredictionData where
  prediction : Direction
  probability_up : ℚ
  probability_down : ℚ
  current_price : ℚ
  technical_indicators : YahooTechnicalIndicators
  accuracy : ℚ
  plot_base64 : String
  forecast : List ForecastPoint
deriving DecidableEq

structure YahooNewsArticle where
  title : String
  url : String
  publisher : String
  published_date : String
  summary : String
deriving DecidableEq

structure NewsResponse where
  items : List YahooNewsArticle
  total_count : ℚ
deriving DecidableEq

/-- A parsed non-2xx JSON error body: the backend contract is a `detail`
string field, which may also be absent (a falsy non-string `detail` behaves
like an absent one in the `errorData.detail || …` expression). -/
structure ErrBody where
  detail : Option String
deriving DecidableEq

/-! ## Rendering rules -/

inductive SignalStyle where
  | positive
  | negative
  | neutral
deriving DecidableEq

/-- The `IndicatorCard` badge classification (identical in all three
variants): the ternary chain over
`signal.toLowerCase().includes('bull') || …includes('strong') ||
signal === 'Overbought'`, then the bear/weak/`'Oversold'` test, else the
gray default. -/
def signalStyle (signal : String) : SignalStyle :=
  if lowerIncludes signal "bull" || lowerIncludes signal "strong"
      || signal == "Overbought" then .positive
  else if lowerIncludes signal "bear" || lowerIncludes signal "weak"
      || signal == "Oversold" then .negative
  else .neutral

inductive Glyph where
  | arrowUp
  | arrowDown
  | trendingUp
  | trendingDown
deriving DecidableEq

inductive UiColor where
  | green
  | red
  | gray
deriving DecidableEq

/-- Forecast-table direction cell:
`point.direction === "UP" ? <ArrowUp green> : <ArrowDown red>`. -/
def forecastDirectionGlyph (direction : String) : Glyph × UiColor :=
  if direction == "UP" then (.arrowUp, .green) else (.arrowDown, .red)

/-- Forecast-table direction label colour:
`point.direction === "UP" ? "text-green-600" : "text-red-600"`. -/
def forecastDirectionTextColor (direction : String) : UiColor :=
  if direction == "UP" then .green else .red

/-- Main prediction card glyph:
`prediction.prediction === 'UP' ? <TrendingUp green> : <TrendingDown red>`. -/
def mainDirectionGlyph (p : Direction) : Glyph × UiColor :=
  if p = .UP then (.trendingUp, .green) else (.trendingDown, .red)

/-- Main prediction card label colour. -/
def mainDirectionTextColor (p : Direction) : UiColor :=
  if p = .UP then .green else .red

/-- Modelled from the spec: the formatting the spec prescribes for every
percentage — value×100 fixed to one decimal place, suffixed with `%`. -/
def specPercent (p : ℚ) : String := toFixed 1 (p * 100) ++ "%"

/-- Forecast-table confidence cell: `(point.probability * 100).toFixed(1)%`. -/
def forecastConfidenceCell (pt : ForecastPoint) : String :=
  toFixed 1 (pt.probability * 100) ++ "%"

/-- Upward-confidence label: `(prediction.probability_up * 100).toFixed(1)%`. -/
def upwardPercentText (pd : PredictionData) : String :=
  toFixed 1 (pd.probability_up * 100) ++ "%"

/-- Downward-confidence label. -/
def downwardPercentText (pd : PredictionData) : String :=
  toFixed 1 (pd.probability_down * 100) ++ "%"

/-- Accuracy percentage of the model-performance line. -/
def accuracyPercentText (pd : PredictionData) : String :=
  toFixed 1 (pd.accuracy * 100) ++ "%"

/-- Modelled from the spec: the currency format the spec claims is
universal — two decimals, locale grouping, `$` prefix. -/
def specCurrency (q : ℚ) : String := "$" ++ toLocaleString2 q

/-- Forecast-table price cell: `$` plus
`point.predicted_price.toLocaleString(undefined, {min/maxFractionDigits: 2})`. -/
def forecastPriceCell (pt : ForecastPoint) : String :=
  "$" ++ toLocaleString2 pt.predicted_price

/-- Low bound of the forecast range cell. -/
def forecastRangeLowCell (pt : ForecastPoint) : String :=
  "$" ++ toLocaleString2 pt.prediction_interval_low

/-- High bound of the forecast range cell. -/
def forecastRangeHighCell (pt : ForecastPoint) : String :=
  "$" ++ toLocaleString2 pt.prediction_interval_high

/-- Current-price display: `${prediction.current_price.toLocaleString()}` —
the no-argument overload. -/
def currentPriceText (pd : PredictionData) : String :=
  "$" ++ toLocaleStringDefault pd.current_price

/-- Home `MarketMoversCard` price: the bare interpolation `${item.price}`. -/
def homeMoverPriceText (t : TickerInfo) : String :=
  "$" ++ jsNumberToString t.price

/-- Yahoo-variant market-mover price: `${item.price.toFixed(2)}`. -/
def yahooMoverPriceText (t : TickerInfo) : String :=
  "$" ++ toFixed 2 t.price

/-! ## News date formatting (home `NewsCard.formatDate`) -/

/-- What the date formatter can put on screen.  `localized y m d` stands for
`new Date("y-m-d").toLocaleDateString()` on a valid date (the locale
rendering of that calendar day); `invalidDate` is the literal string
`"Invalid Date"` that `toLocaleDateString` returns on an invalid `Date`;
`raw s` models the `catch` branch returning the input unchanged. -/
inductive DateRender where
  | na
  | localized (y m d : Nat)
  | invalidDate
  | raw (s : String)
deriving DecidableEq

def digitVal (c : Char) : Nat := c.toNat - 48

def natOfDigits (l : List Char) : Nat :=
  l.foldl (fun n c => n * 10 + digitVal c) 0

def isLeapYear (y : Nat) : Bool :=
  (y % 4 == 0 && y % 100 != 0) || y % 400 == 0

def daysInMonth (y m : Nat) : Nat :=
  if m = 2 then (if isLeapYear y then 29 else 28)
  else if m = 4 ∨ m = 6 ∨ m = 9 ∨ m = 11 then 30
  else 31

/-- ECMA-262 parsing of `new Date("YYYY-MM-DD")`: a conforming date-only ISO
string with in-range month and day yields that calendar day; anything else
(non-digits, out-of-range fields) yields an invalid `Date` (NaN time value) —
it never throws. -/
def parseIsoDate (s : String) : Option (Nat × Nat × Nat) :=
  match s.toList with
  | [y1, y2, y3, y4, '-', m1, m2, '-', d1, d2] =>
      if ([y1, y2, y3, y4, m1, m2, d1, d2].all Char.isDigit) then
        let y := natOfDigits [y1, y2, y3, y4]
        let m := natOfDigits [m1, m2]
        let d := natOfDigits [d1, d2]
        if 1 ≤ m ∧ m ≤ 12 ∧ 1 ≤ d ∧ d ≤ daysInMonth y m then some (y, m, d)
        else none
      else none
  | _ => none

/-- Home `NewsCard.formatDate`: falsy or short input gives `"N/A"`; otherwise
the `year`/`month`/`day` substrings (indices 0-4, 4-6, 6-8) are joined with
dashes and passed to `new Date(…).toLocaleDateString()`.  None of those
operations throws, so the `catch e { return dateString }` branch (constructor
`DateRender.raw`) is unreachable; an unparsable date renders as
`"Invalid Date"`. -/
def formatDate (dateString : String) : DateRender :=
  if dateString = "" ∨ dateString.length < 8 then .na
  else
    match parseIsoDate (jsSubstring dateString 0 4 ++ "-"
        ++ jsSubstring dateString 4 6 ++ "-" ++ jsSubstring dateString 6 8) with
    | some ymd => .localized ymd.1 ymd.2.1 ymd.2.2
    | none => .invalidDate

/-! ## Requests -/

def hexDigit (n : Nat) : Char :=
  if n < 10 then Char.ofNat (48 + n) else Char.ofNat (87 + n)

/-- `JSON.stringify` escaping of one character inside a string literal. -/
def jsonEscapeChar (c : Char) : String :=
  if c = '"' then "\\\""
  else if c = '\\' then "\\\\"
  else if c.toNat = 8 then "\\b"
  else if c.toNat = 12 then "\\f"
  else if c = '\n' then "\\n"
  else if c.toNat = 13 then "\\r"
  else if c = '\t' then "\\t"
  else if c.toNat < 32 then
    "\\u00" ++ String.mk [hexDigit (c.toNat / 16), hexDigit (c.toNat % 16)]
  else String.mk [c]

/-- A JSON string literal for `s`. -/
def jsonStr (s : String) : String :=
  "\"" ++ String.join (s.toList.map jsonEscapeChar) ++ "\""

/-- `JSON.stringify(formData)` for the home (and unnamed) variant: object
keys in interface declaration order. -/
def jsonStringifyFormData (fd : FormData) : String :=
  "\x7b\"base_currency\":" ++ jsonStr fd.base_currency
    ++ ",\"quote_currency\":" ++ jsonStr fd.quote_currency
    ++ ",\"timeframe\":" ++ jsonStr fd.timeframe
    ++ ",\"period\":" ++ jsonStr fd.period
    ++ ",\"api_key\":" ++ jsonStr fd.api_key
    ++ "\x7d"

/-- `JSON.stringify(formData)` for the yahoo variant. -/
def jsonStringifyYahooFormData (fd : YahooFormData) : String :=
  "\x7b\"symbol\":" ++ jsonStr fd.symbol
    ++ ",\"timeframe\":" ++ jsonStr fd.timeframe
    ++ ",\"period\":" ++ jsonStr fd.period
    ++ "\x7d"

structure HttpRequest where
  url : String
  method : String
  contentType : String
  body : String
deriving DecidableEq

/-- The prediction POST issued by the home variant (the unnamed variant
issues the byte-identical request). -/
def homePredictRequest (fd : FormData) : HttpRequest :=
  { url := "https://portal2.incoe.astra.co.id/api-analysis/predict"
    method := "POST"
    contentType := "application/json"
    body := jsonStringifyFormData fd }

/-- The prediction POST issued by the yahoo variant. -/
def yahooPredictRequest (fd : YahooFormData) : HttpRequest :=
  { url := "https://portal2.incoe.astra.co.id/api-analysis-yahoo/predict"
    method := "POST"
    contentType := "application/json"
    body := jsonStringifyYahooFormData fd }

/-! ## Fetch outcomes and state machines -/

/-- Outcome of a secondary GET (market movers, news): the fetch promise
rejects with an `Error` message, or resolves non-2xx, or resolves 2xx and
the body JSON-parse either throws (message) or yields a payload. -/
inductive SecOutcome (α : Type) where
  | netErr (msg : String)
  | non2xx
  | ok (body : Except String α)

/-- Outcome of the prediction POST.  On a non-2xx response the handlers
parse the body for an error `detail`, so the non-2xx case carries that
parse's result. -/
inductive PredictOutcome (α : Type) where
  | netErr (msg : String)
  | non2xx (body : Except String ErrBody)
  | ok (body : Except String α)

/-- Models `errorData.detail || 'Failed to fetch prediction'` followed by
`new Error(…).message`: an absent (or falsy, e.g. empty-string) `detail`
falls back to the generic message. -/
def detailOrFallback (body : ErrBody) : String :=
  match body.detail with
  | some d => if d = "" then "Failed to fetch prediction" else d
  | none => "Failed to fetch prediction"

/-- Home-variant component state.  (The `newsSentiment`/`newsLoading` slots
declared in the source are never written by any handler and are omitted.) -/
structure HomeState where
  prediction : Option PredictionData
  marketMovers : Option MarketMovers
  error : Option String
  loading : Bool
  marketLoading : Bool
deriving DecidableEq

/-- Unnamed-variant component state. -/
structure Part000State where
  prediction : Option PredictionData
  loading : Bool
  error : Option String
deriving DecidableEq

/-- Yahoo-variant component state. -/
structure YahooState where
  prediction : Option YahooPredictionData
  marketMovers : Option MarketMovers
  news : Option NewsResponse
  loading : Bool
  error : Option String
deriving DecidableEq

/-- `setLoading(true); setError(null);` at the top of the home
`handleSubmit`. -/
def submitStart (s : HomeState) : HomeState :=
  { s with loading := true, error := none }

/-- Same two calls in the unnamed variant. -/
def part000Start (s : Part000State) : Part000State :=
  { s with loading := true, error := none }

/-- Same two calls in the yahoo variant. -/
def yahooStart (s : YahooState) : YahooState :=
  { s with loading := true, error := none }

/-- Home `fetchMarketMovers`: sets its own loading flag, throws
`Error("Failed to fetch market data")` on a non-2xx response, stores the
parsed payload on success, and routes every thrown `Error`'s message into
the shared `error` slot; `finally` clears the loading flag. -/
def fetchMarketMovers (s : HomeState) (o : SecOutcome MarketMovers) : HomeState :=
  let s1 := { s with marketLoading := true }
  let s2 :=
    match o with
    | .netErr msg => { s1 with error := some msg }
    | .non2xx => { s1 with error := some "Failed to fetch market data" }
    | .ok (.error msg) => { s1 with error := some msg }
    | .ok (.ok data) => { s1 with marketMovers := some data }
  { s2 with marketLoading := false }

/-- Home `handleSubmit`: start (loading on, error cleared); POST the frozen
form data; non-2xx throws `Error(errorData.detail || fallback)`; success
stores the payload and — only when `formData.api_key` is truthy — triggers
`fetchMarketMovers`; `catch` stores the thrown message; `finally` clears
loading. -/
def homeHandleSubmit (s : HomeState) (fd : FormData)
    (po : PredictOutcome PredictionData) (mo : SecOutcome MarketMovers) :
    HomeState :=
  let s1 := submitStart s
  let s2 :=
    match po with
    | .netErr msg => { s1 with error := some msg }
    | .non2xx (.error msg) => { s1 with error := some msg }
    | .non2xx (.ok body) => { s1 with error := some (detailOrFallback body) }
    | .ok (.error msg) => { s1 with error := some msg }
    | .ok (.ok data) =>
        let s3 := { s1 with prediction := some data }
        if fd.api_key ≠ "" then fetchMarketMovers s3 mo else s3
  { s2 with loading := false }

/-- Unnamed-variant `handleSubmit`: identical to the home one but with no
secondary fetch. -/
def part000HandleSubmit (s : Part000State) (_fd : FormData)
    (po : PredictOutcome PredictionData) : Part000State :=
  let s1 := part000Start s
  let s2 :=
    match po with
    | .netErr msg => { s1 with error := some msg }
    | .non2xx (.error msg) => { s1 with error := some msg }
    | .non2xx (.ok body) => { s1 with error := some (detailOrFallback body) }
    | .ok (.error msg) => { s1 with error := some msg }
    | .ok (.ok data) => { s1 with prediction := some data }
  { s2 with loading := false }

/-- Yahoo news GET: `if (newsResponse.ok) { setNews(await json()) }` — a
non-2xx response is silently skipped; only a thrown `Error` (rejected fetch
or JSON parse) aborts to the shared `catch`. -/
def yahooNewsStep (s : YahooState) (o : SecOutcome NewsResponse) : YahooState :=
  match o with
  | .netErr msg => { s with error := some msg }
  | .non2xx => s
  | .ok (.error msg) => { s with error := some msg }
  | .ok (.ok data) => { s with news := some data }

/-- Yahoo market-movers GET followed (on non-throwing paths) by the news
GET; a thrown `Error` aborts the whole `try` block, skipping the news
fetch. -/
def yahooMarketStep (s : YahooState) (mo : SecOutcome MarketMovers)
    (no : SecOutcome NewsResponse) : YahooState :=
  match mo with
  | .netErr msg => { s with error := some msg }
  | .non2xx => yahooNewsStep s no
  | .ok (.error msg) => { s with error := some msg }
  | .ok (.ok data) => yahooNewsStep { s with marketMovers := some data } no

/-- Yahoo `handleSubmit`: prediction POST as in the home variant, then the
two secondary GETs inside the same `try` block. -/
def yahooHandleSubmit (s : YahooState) (_fd : YahooFormData)
    (po : PredictOutcome YahooPredictionData) (mo : SecOutcome MarketMovers)
    (no : SecOutcome NewsResponse) : YahooState :=
  let s1 := yahooStart s
  let s2 :=
    match po with
    | .netErr msg => { s1 with error := some msg }
    | .non2xx (.error msg) => { s1 with error := some msg }
    | .non2xx (.ok body) => { s1 with error := some (detailOrFallback body) }
    | .ok (.error msg) => { s1 with error := some msg }
    | .ok (.ok data) => yahooMarketStep { s1 with prediction := some data } mo no
  { s2 with loading := false }

/-! ## Initial states and sample data -/

/-- The home variant's `useState` form defaults. -/
def initialHomeForm : FormData :=
  { base_currency := "BTC", quote_currency := "USD", timeframe := "daily"
    period := "180", api_key := "4W0ZWSSG69XAYG4U" }

def initialHomeState : HomeState :=
  { prediction := none, marketMovers := none, error := none
    loading := false, marketLoading := false }

/-- The unnamed variant's `useState` form defaults (empty API key). -/
def initialPart000Form : FormData :=
  { base_currency := "BTC", quote_currency := "USD", timeframe := "daily"
    period := "30", api_key := "" }

def initialPart000State : Part000State :=
  { prediction := none, loading := false, error := none }

/-- The yahoo variant's `useState` form defaults. -/
def initialYahooForm : YahooFormData :=
  { symbol := "BTC-USD", timeframe := "1d", period := "30d" }

def initialYahooState : YahooState :=
  { prediction := none, marketMovers := none, news := none
    loading := false, error := none }

def sampleTechnicalIndicators : TechnicalIndicators :=
  { rsi := 70, rsi_signal := "Overbought", macd := 1 / 2, macd_signal := "Bullish"
    stochastic := 80, stochastic_signal := "Overbought", adx := 25
    trend_strength := "Strong", atr := 3 / 2, mfi := 60 }

def sampleForecastPoint : ForecastPoint :=
  { date := "2025-02-25", predicted_price := 2469 / 2
    prediction_interval_low := 1200, prediction_interval_high := 1300
    direction := "UP", probability := 8234 / 10000 }

def samplePrediction : PredictionData :=
  { prediction := .UP, probability_up := 8234 / 10000
    probability_down := 1766 / 10000, current_price := 100001 / 2
    technical_indicators := sampleTechnicalIndicators
    accuracy := 8234 / 10000, plot_base64 := ""
    forecast := [sampleForecastPoint] }

def sampleTicker : TickerInfo :=
  { ticker := "NVDA", price := 2469 / 2, change_amount := 5
    change_percentage := 3 / 2, volume := 1000000 }

/-! ## Helper lemmas -/

/-- The home secondary fetch never touches the stored prediction. -/
theorem fetchMarketMovers_prediction (s : HomeState) (o : SecOutcome MarketMovers) :
    (fetchMarketMovers s o).prediction = s.prediction := by
  cases o with
  | netErr msg => rfl
  | non2xx => rfl
  | ok body => cases body with
    | error msg => rfl
    | ok data => rfl

/-! ## Claims -/

/-- C2: the indicator-card style is positive when the lowercased signal
contains "bull" or "strong" or the signal is exactly "Overbought"; otherwise
negative when the lowercased signal contains "bear" or "weak" or the signal
is exactly "Oversold"; otherwise neutral — with the positive branch tested
first, so "Bearish Weak" is negative and "bullish trend" is positive. -/
theorem c2_signal_classification (s : String) :
    ((lowerIncludes s "bull" || lowerIncludes s "strong" || s == "Overbought") = true →
      signalStyle s = .positive)
    ∧ ((lowerIncludes s "bull" || lowerIncludes s "strong" || s == "Overbought") = false →
        (lowerIncludes s "bear" || lowerIncludes s "weak" || s == "Oversold") = true →
        signalStyle s = .negative)
    ∧ ((lowerIncludes s "bull" || lowerIncludes s "strong" || s == "Overbought") = false →
        (lowerIncludes s "bear" || lowerIncludes s "weak" || s == "Oversold") = false →
        signalStyle s = .neutral)
    ∧ signalStyle "Bearish Weak" = .negative
    ∧ signalStyle "bullish trend" = .positive
    ∧ signalStyle "Overbought" = .positive
    ∧ signalStyle "Oversold" = .negative
    ∧ signalStyle "Neutral" = .neutral := by
  refine ⟨?_, ?_, ?_, by decide, by decide, by decide, by decide, by decide⟩
  · intro h
    simp [signalStyle, h]
  · intro h1 h2
    simp [signalStyle, h1, h2]
  · intro h1 h2
    simp [signalStyle, h1, h2]

/-- C2 witness: the positive branch at the concrete signal "Overbought". -/
theorem c2_signal_classification_witness :
    signalStyle "Overbought" = SignalStyle.positive :=
  (c2_signal_classification "Overbought").1 (by decide)

/-- C6: a direction value of "UP" renders the upward glyph with green
styling and "DOWN" the downward glyph with red styling, both in the forecast
table and in the main prediction card. -/
theorem c6_direction_rendering (pt : ForecastPoint) (pd : PredictionData) :
    (pt.direction = "UP" →
      forecastDirectionGlyph pt.direction = (.arrowUp, .green)
      ∧ forecastDirectionTextColor pt.direction = .green)
    ∧ (pt.direction = "DOWN" →
        forecastDirectionGlyph pt.direction = (.arrowDown, .red)
        ∧ forecastDirectionTextColor pt.direction = .red)
    ∧ (pd.prediction = .UP →
        mainDirectionGlyph pd.prediction = (.trendingUp, .green)
        ∧ mainDirectionTextColor pd.prediction = .green)
    ∧ (pd.prediction = .DOWN →
        mainDirectionGlyph pd.prediction = (.trendingDown, .red)
        ∧ mainDirectionTextColor pd.prediction = .red) := by
  refine ⟨?_, ?_, ?_, ?_⟩ <;> intro h <;> rw [h] <;> exact ⟨by decide, by decide⟩

/-- C6 witness: the sample forecast point has direction "UP" and renders the
green upward arrow. -/
theorem c6_direction_rendering_witness :
    forecastDirectionGlyph sampleForecastPoint.direction = (Glyph.arrowUp, UiColor.green)
    ∧ forecastDirectionTextColor sampleForecastPoint.direction = UiColor.green :=
  (c6_direction_rendering sampleForecastPoint samplePrediction).1 rfl

/-- C5: every probability in [0,1] — forecast-point probability,
probability_up, probability_down, accuracy — renders as value×100 fixed to
one decimal place followed by "%", e.g. 0.8234 renders as "82.3%". -/
theorem c5_percent_rendering (pt : ForecastPoint) (pd : PredictionData) (p : ℚ)
    (_h0 : 0 ≤ p) (_h1 : p ≤ 1) :
    (pt.probability = p → forecastConfidenceCell pt = specPercent p)
    ∧ (pd.probability_up = p → upwardPercentText pd = specPercent p)
    ∧ (pd.probability_down = p → downwardPercentText pd = specPercent p)
    ∧ (pd.accuracy = p → accuracyPercentText pd = specPercent p)
    ∧ specPercent (8234 / 10000) = "82.3%" := by
  refine ⟨?_, ?_, ?_, ?_, ?_⟩
  · intro h; rw [forecastConfidenceCell, h, specPercent]
  · intro h; rw [upwardPercentText, h, specPercent]
  · intro h; rw [downwardPercentText, h, specPercent]
  · intro h; rw [accuracyPercentText, h, specPercent]
  · have h : roundScaled 1 ((8234 : ℚ) / 10000 * 100) = 823 := by
      norm_num [roundScaled]
    rw [specPercent, toFixed, if_neg (by norm_num), h]
    decide

/-- C5 witness: the sample forecast point with probability 0.8234 renders
"82.3%". -/
theorem c5_percent_rendering_witness :
    forecastConfidenceCell sampleForecastPoint = "82.3%" := by
  have h := c5_percent_rendering sampleForecastPoint samplePrediction
    (8234 / 10000) (by norm_num) (by norm_num)
  exact (h.1 rfl).trans h.2.2.2.2

/-- C8 counterexample: the current-price display uses the no-argument
`toLocaleString()`, so 50000.5 renders as "$50,000.5" — not the exactly
two-decimal "$50,000.50" the claim asserts for every currency value. -/
theorem c8_currency_counterexample :
    currentPriceText samplePrediction = "$50,000.5"
    ∧ specCurrency samplePrediction.current_price = "$50,000.50"
    ∧ currentPriceText samplePrediction ≠ specCurrency samplePrediction.current_price := by
  have e1 : currentPriceText samplePrediction = "$50,000.5" := by
    have h3 : roundScaled 3 ((100001 : ℚ) / 2) = 50000500 := by
      norm_num [roundScaled]
    rw [currentPriceText, show samplePrediction.current_price = (100001 : ℚ) / 2 from rfl,
      toLocaleStringDefault, if_neg (by norm_num), h3]
    decide
  have e2 : specCurrency samplePrediction.current_price = "$50,000.50" := by
    have h2 : roundScaled 2 ((100001 : ℚ) / 2) = 5000050 := by
      norm_num [roundScaled]
    rw [specCurrency, show samplePrediction.current_price = (100001 : ℚ) / 2 from rfl,
      toLocaleString2, if_neg (by norm_num), h2]
    decide
  refine ⟨e1, e2, ?_⟩
  rw [e1, e2]
  decide

/-- C8 (amended): only the forecast-table prices (predicted price and the
two interval bounds) use the two-decimal locale-grouped "$" format; the
current price uses the default locale format (grouping, at most three
fraction digits), the home market-mover prices are raw "$"-prefixed number
strings, and the yahoo market-mover prices use toFixed(2) without
grouping. -/
theorem c8_currency_amended (pt : ForecastPoint) (t : TickerInfo)
    (pd : PredictionData) :
    forecastPriceCell pt = specCurrency pt.predicted_price
    ∧ forecastRangeLowCell pt = specCurrency pt.prediction_interval_low
    ∧ forecastRangeHighCell pt = specCurrency pt.prediction_interval_high
    ∧ currentPriceText pd = "$" ++ toLocaleStringDefault pd.current_price
    ∧ homeMoverPriceText t = "$" ++ jsNumberToString t.price
    ∧ yahooMoverPriceText t = "$" ++ toFixed 2 t.price
    ∧ forecastPriceCell sampleForecastPoint = "$1,234.50"
    ∧ yahooMoverPriceText sampleTicker = "$1234.50" := by
  have h2 : roundScaled 2 ((2469 : ℚ) / 2) = 123450 := by
    norm_num [roundScaled]
  refine ⟨rfl, rfl, rfl, rfl, rfl, rfl, ?_, ?_⟩
  · rw [forecastPriceCell,
      show sampleForecastPoint.predicted_price = (2469 : ℚ) / 2 from rfl,
      toLocaleString2, if_neg (by norm_num), h2]
    decide
  · rw [yahooMoverPriceText, show sampleTicker.price = (2469 : ℚ) / 2 from rfl,
      toFixed, if_neg (by norm_num), h2]
    decide

/-- C1 counterexample: a non-2xx body whose `detail` field holds the empty
string — a string field — does not surface that string: the JS `||` treats
it as falsy and the fallback message is stored instead. -/
theorem c1_detail_error_counterexample :
    (homeHandleSubmit initialHomeState initialHomeForm
        (.non2xx (.ok { detail := some "" })) .non2xx).error
      = some "Failed to fetch prediction"
    ∧ ("Failed to fetch prediction" : String) ≠ "" := by
  exact ⟨rfl, by decide⟩

/-- C1 (amended): on a non-2xx prediction response whose JSON body holds a
non-empty string `detail`, the error state equals that string; when `detail`
is absent (or empty, hence falsy), the error state is the fallback "Failed
to fetch prediction" — in both the home and the yahoo variant. -/
theorem c1_detail_error_amended (s : HomeState) (sy : YahooState)
    (fdh : FormData) (fdy : YahooFormData) (mo mo2 : SecOutcome MarketMovers)
    (no : SecOutcome NewsResponse) (d : String) (hd : d ≠ "") :
    (homeHandleSubmit s fdh (.non2xx (.ok { detail := some d })) mo).error = some d
    ∧ (homeHandleSubmit s fdh (.non2xx (.ok { detail := none })) mo).error
        = some "Failed to fetch prediction"
    ∧ (yahooHandleSubmit sy fdy (.non2xx (.ok { detail := some d })) mo2 no).error
        = some d
    ∧ (yahooHandleSubmit sy fdy (.non2xx (.ok { detail := none })) mo2 no).error
        = some "Failed to fetch prediction" := by
  refine ⟨?_, ?_, ?_, ?_⟩ <;>
    simp [homeHandleSubmit, yahooHandleSubmit, submitStart, yahooStart,
      detailOrFallback, hd]

/-- C1 witness: `detail = "Invalid symbol"` surfaces verbatim. -/
theorem c1_detail_error_witness :
    (homeHandleSubmit initialHomeState initialHomeForm
        (.non2xx (.ok { detail := some "Invalid symbol" })) .non2xx).error
      = some "Invalid symbol" :=
  (c1_detail_error_amended initialHomeState initialYahooState initialHomeForm
    initialYahooForm .non2xx .non2xx .non2xx "Invalid symbol" (by decide)).1

/-- C3 counterexample: an 8-character input that is not a date does not come
back verbatim — `new Date` never throws, so the `catch` branch is dead and
the display is the literal "Invalid Date". -/
theorem c3_news_date_counterexample :
    formatDate "XXXXXXXX" = DateRender.invalidDate
    ∧ formatDate "XXXXXXXX" ≠ DateRender.raw "XXXXXXXX" := by
  exact ⟨by decide, by decide⟩

/-- C3 (amended): inputs shorter than 8 characters format as "N/A"; when the
first 8 characters are a valid YYYYMMDD date the result is the
locale-rendered calendar date for that year-month-day (so "20250224T231000"
shows the locale date of 2025-02-24); when they are not, the result is the
literal "Invalid Date" — never the raw input, the `catch` branch being
unreachable. -/
theorem c3_news_date_amended (s : String) (y m d : Nat) :
    (s.length < 8 → formatDate s = .na)
    ∧ (8 ≤ s.length →
        parseIsoDate (jsSubstring s 0 4 ++ "-" ++ jsSubstring s 4 6 ++ "-"
          ++ jsSubstring s 6 8) = some (y, m, d) →
        formatDate s = .localized y m d)
    ∧ (8 ≤ s.length →
        parseIsoDate (jsSubstring s 0 4 ++ "-" ++ jsSubstring s 4 6 ++ "-"
          ++ jsSubstring s 6 8) = none →
        formatDate s = .invalidDate)
    ∧ formatDate "20250224T231000" = .localized 2025 2 24
    ∧ formatDate "2025" = .na := by
  have hne : 8 ≤ s.length → ¬(s = "" ∨ s.length < 8) := by
    intro h8 hor
    rcases hor with rfl | hl
    · have h0 : ("" : String).length = 0 := rfl
      omega
    · omega
  refine ⟨?_, ?_, ?_, by decide, by decide⟩
  · intro h
    rw [formatDate, if_pos (Or.inr h)]
  · intro h8 hp
    rw [formatDate, if_neg (hne h8), hp]
  · intro h8 hp
    rw [formatDate, if_neg (hne h8), hp]

/-- C3 witness: the compact timestamp of the spec's example. -/
theorem c3_news_date_witness :
    formatDate "20250224T231000" = DateRender.localized 2025 2 24 :=
  ((c3_news_date_amended "20250224T231000" 2025 2 24).2.1) (by decide) (by decide)

/-- C4: when the prediction POST succeeds and the subsequently issued
market-movers fetch fails (rejected fetch, non-2xx, or JSON parse failure),
the shared error slot is overwritten with the secondary fetch's error
message while the stored prediction payload stays intact. -/
theorem c4_secondary_error_overwrites (s : HomeState) (fd : FormData)
    (d : PredictionData) (msg : String) (hk : fd.api_key ≠ "") :
    ((homeHandleSubmit s fd (.ok (.ok d)) (.netErr msg)).error = some msg
      ∧ (homeHandleSubmit s fd (.ok (.ok d)) (.netErr msg)).prediction = some d)
    ∧ ((homeHandleSubmit s fd (.ok (.ok d)) .non2xx).error
          = some "Failed to fetch market data"
      ∧ (homeHandleSubmit s fd (.ok (.ok d)) .non2xx).prediction = some d)
    ∧ ((homeHandleSubmit s fd (.ok (.ok d)) (.ok (.error msg))).error = some msg
      ∧ (homeHandleSubmit s fd (.ok (.ok d)) (.ok (.error msg))).prediction = some d) := by
  refine ⟨⟨?_, ?_⟩, ⟨?_, ?_⟩, ⟨?_, ?_⟩⟩ <;>
    simp [homeHandleSubmit, submitStart, fetchMarketMovers, hk]

/-- C4 witness: non-2xx market movers after a successful prediction. -/
theorem c4_secondary_error_overwrites_witness :
    (homeHandleSubmit initialHomeState initialHomeForm
        (.ok (.ok samplePrediction)) .non2xx).error
      = some "Failed to fetch market data"
    ∧ (homeHandleSubmit initialHomeState initialHomeForm
        (.ok (.ok samplePrediction)) .non2xx).prediction = some samplePrediction :=
  (c4_secondary_error_overwrites initialHomeState initialHomeForm samplePrediction
    "network down" (by decide)).2.1

/-- C7: the submit handler starts by setting the loading flag and clearing
any previous error; the request body is the frozen form data serialized as
JSON; a 2xx response stores the parsed body as the prediction; and loading
is cleared however the request settles — in the home variant and the
unnamed variant alike. -/
theorem c7_submit_lifecycle (s : HomeState) (s0 : Part000State) (fd : FormData)
    (po : PredictOutcome PredictionData) (mo : SecOutcome MarketMovers)
    (d : PredictionData) :
    (submitStart s).loading = true
    ∧ (submitStart s).error = none
    ∧ (homePredictRequest fd).method = "POST"
    ∧ (homePredictRequest fd).body = jsonStringifyFormData fd
    ∧ (homeHandleSubmit s fd (.ok (.ok d)) mo).prediction = some d
    ∧ (homeHandleSubmit s fd po mo).loading = false
    ∧ (part000Start s0).loading = true
    ∧ (part000Start s0).error = none
    ∧ (part000HandleSubmit s0 fd (.ok (.ok d))).prediction = some d
    ∧ (part000HandleSubmit s0 fd po).loading = false
    ∧ jsonStringifyFormData initialHomeForm
        = "\x7b\"base_currency\":\"BTC\",\"quote_currency\":\"USD\",\"timeframe\":\"daily\",\"period\":\"180\",\"api_key\":\"4W0ZWSSG69XAYG4U\"\x7d" := by
  refine ⟨rfl, rfl, rfl, rfl, ?_, rfl, rfl, rfl, rfl, rfl, by decide⟩
  by_cases hk : fd.api_key = ""
  · simp [homeHandleSubmit, submitStart, hk]
  · simp [homeHandleSubmit, submitStart, hk, fetchMarketMovers_prediction]

/-- C9: every failing outcome of the prediction POST (network error, non-2xx
status, JSON parse failure) sets the error state and leaves the previously
stored prediction (and market movers) untouched, in the home and unnamed
variants. -/
theorem c9_failure_preserves_prediction (s : HomeState) (s0 : Part000State)
    (fd : FormData) (mo : SecOutcome MarketMovers) (msg : String)
    (eb : Except String ErrBody) :
    ((homeHandleSubmit s fd (.netErr msg) mo).prediction = s.prediction
      ∧ (homeHandleSubmit s fd (.netErr msg) mo).marketMovers = s.marketMovers
      ∧ (homeHandleSubmit s fd (.netErr msg) mo).error = some msg)
    ∧ ((homeHandleSubmit s fd (.non2xx eb) mo).prediction = s.prediction
      ∧ (homeHandleSubmit s fd (.non2xx eb) mo).marketMovers = s.marketMovers
      ∧ ((homeHandleSubmit s fd (.non2xx eb) mo).error).isSome = true)
    ∧ ((homeHandleSubmit s fd (.ok (.error msg)) mo).prediction = s.prediction
      ∧ (homeHandleSubmit s fd (.ok (.error msg)) mo).error = some msg)
    ∧ ((part000HandleSubmit s0 fd (.netErr msg)).prediction = s0.prediction
      ∧ (part000HandleSubmit s0 fd (.netErr msg)).error = some msg)
    ∧ ((part000HandleSubmit s0 fd (.non2xx eb)).prediction = s0.prediction
      ∧ ((part000HandleSubmit s0 fd (.non2xx eb)).error).isSome = true)
    ∧ ((part000HandleSubmit s0 fd (.ok (.error msg))).prediction = s0.prediction
      ∧ (part000HandleSubmit s0 fd (.ok (.error msg))).error = some msg) := by
  refine ⟨⟨rfl, rfl, rfl⟩, ⟨?_, ?_, ?_⟩, ⟨rfl, rfl⟩, ⟨rfl, rfl⟩, ⟨?_, ?_⟩, ⟨rfl, rfl⟩⟩ <;>
    cases eb <;> rfl

/-- C10: in the yahoo variant a non-2xx response to either secondary GET is
silently skipped — the stored market-movers/news payloads stay unchanged and
no error is set — while a thrown exception from either secondary fetch does
reach the shared error slot. -/
theorem c10_yahoo_secondary_silent (s : YahooState) (fd : YahooFormData)
    (d : YahooPredictionData) (m : MarketMovers) (msg : String)
    (no : SecOutcome NewsResponse) :
    ((yahooHandleSubmit s fd (.ok (.ok d)) .non2xx .non2xx).error = none
      ∧ (yahooHandleSubmit s fd (.ok (.ok d)) .non2xx .non2xx).marketMovers
          = s.marketMovers
      ∧ (yahooHandleSubmit s fd (.ok (.ok d)) .non2xx .non2xx).news = s.news)
    ∧ ((yahooHandleSubmit s fd (.ok (.ok d)) (.ok (.ok m)) .non2xx).news = s.news
      ∧ (yahooHandleSubmit s fd (.ok (.ok d)) (.ok (.ok m)) .non2xx).error = none)
    ∧ (yahooHandleSubmit s fd (.ok (.ok d)) (.netErr msg) no).error = some msg
    ∧ (yahooHandleSubmit s fd (.ok (.ok d)) .non2xx (.netErr msg)).error = some msg
    ∧ (yahooHandleSubmit s fd (.ok (.ok d)) (.ok (.ok m)) (.netErr msg)).error
        = some msg :=
  ⟨⟨rfl, rfl, rfl⟩, ⟨rfl, rfl⟩, rfl, rfl, rfl⟩

end CryptoDash
